/-
Verification of the incremental scrape-reconciliation core of the
Procurement-analysis repository (meter_pr_rulle_script.py and
H1_scraper_script.py), shallowly embedded in Lean 4.

Modelling conventions:
* Python strings are Lean `String`; per-character operations are carried
  out on `String.data` (the list of characters), which matches Python's
  code-point semantics for the ASCII data handled here.
* The browser/DOM state visible to the scripts is abstracted as a
  `TableState`: the header cell texts and the body rows' cell texts.
  Selenium lookups become total functions over that state; an XPath
  `find_element` that raises `NoSuchElementException` becomes an
  `Option`-returning search.
* pandas frames are `Frame`s: named columns of optional (nullable) cells.
* Exceptions are modelled with `Except`; functions that cannot raise are
  plain total functions.
-/
import Mathlib

/-! ### Character-level helpers (Python string primitives) -/

/-- Python `a.startswith(b)` / prefix test on character lists. -/
def leadEq : List Char → List Char → Bool
  | [], _ => true
  | _ :: _, [] => false
  | a :: as, b :: bs => a = b && leadEq as bs

/-- Substring containment on character lists (XPath `contains`). -/
def hasSub (needle : List Char) : List Char → Bool
  | [] => leadEq needle []
  | c :: t => leadEq needle (c :: t) || hasSub needle t

/-- Python `str.split()` : split on whitespace runs, dropping empty pieces.
`cur` accumulates the current word in reverse. -/
def wordsAux (cur : List Char) : List Char → List (List Char)
  | [] => if cur.isEmpty then [] else [cur.reverse]
  | c :: cs =>
    if c.isWhitespace then
      if cur.isEmpty then wordsAux [] cs else cur.reverse :: wordsAux [] cs
    else wordsAux (c :: cur) cs

def splitWs (l : List Char) : List (List Char) := wordsAux [] l

/-- Python `" ".join(words)`. -/
def joinSpace : List (List Char) → List Char
  | [] => []
  | [w] => w
  | w :: ws => w ++ ' ' :: joinSpace ws

/-- Python `str.strip()` (and the effect of XPath `normalize-space` at the
ends): drop leading and trailing whitespace. -/
def trimChars (l : List Char) : List Char :=
  ((l.dropWhile Char.isWhitespace).reverse.dropWhile Char.isWhitespace).reverse

/-- Python `s.strip()` on strings. -/
def pyStrip (s : String) : String := ⟨trimChars s.data⟩

/-- Python `str(v).startswith(p)`. -/
def pyStartswith (p v : String) : Bool := leadEq p.data v.data

/-- XPath `normalize-space(s)`: strip ends and collapse internal whitespace
runs to single spaces. -/
def normSpace (s : String) : String := ⟨joinSpace (splitWs s.data)⟩

/-! ### Table parsing (meter_pr_rulle_script.py lines 78–135,
H1_scraper_script.py lines 80–141) -/

/-- Function `normalize_header(text)`: `" ".join(text.lower().split())`. -/
def normalize_header (s : String) : String :=
  ⟨joinSpace (splitWs (s.data.map Char.toLower))⟩

/-- The DOM table as the scripts observe it: the header cell texts found
by the header XPath probe (empty when the table has no header row), and
each body row's `td` texts. -/
structure TableState where
  theadCells : List String
  rows : List (List String)
deriving DecidableEq, Repr

/-- Header selection of `build_col_map`: the `thead//th` texts, or, when
there are none, the first body row's cells. -/
def headerCells (t : TableState) : List String :=
  if t.theadCells.isEmpty then t.rows.headD [] else t.theadCells

/-- Python `dict` assignment `m[k] = v`: overwrite in place if the key is
present, else append. -/
def dictInsert (m : List (String × Nat)) (k : String) (v : Nat) :
    List (String × Nat) :=
  if m.any (fun p => p.1 = k) then
    m.map (fun p => if p.1 = k then (k, v) else p)
  else m ++ [(k, v)]

/-- Python `dict.get(k)`. -/
def dictGet (m : List (String × Nat)) (k : String) : Option Nat :=
  (m.find? (fun p => p.1 = k)).map (fun p => p.2)

/-- Body of `build_col_map(driver, xpath)`: for each header cell in order, if its
stripped text is nonempty, map the normalized text to the cell's index. -/
def build_col_map (headers : List String) : List (String × Nat) :=
  headers.enum.foldl
    (fun m p =>
      let txt := pyStrip p.2
      if txt = "" then m else dictInsert m (normalize_header txt) p.1)
    []

/-- The row-locating XPath pair of `extract_metrics` (lines 104–116):
first the row with a `td` whose normalized text equals `varenr` exactly,
else the row with a `td` whose normalized text contains `varenr`. -/
def findRow (t : TableState) (varenr : String) : Option (List String) :=
  match t.rows.find? (fun r => r.any (fun c => normSpace c = varenr)) with
  | some r => some r
  | none =>
    t.rows.find? (fun r => r.any (fun c => hasSub varenr.data (normSpace c).data))

/-- The per-field body of the extraction loop (lines 119–128): header-name
lookup in the column map when in range, else the fixed fallback index when
in range, else leave the field at its initial `""`. -/
def resolveField (m : List (String × Nat)) (cells : List String)
    (hdr : String) (fb : Nat) : String :=
  match dictGet m hdr with
  | some idx =>
    if idx < cells.length then pyStrip (cells.getD idx "")
    else if fb < cells.length then pyStrip (cells.getD fb "") else ""
  | none => if fb < cells.length then pyStrip (cells.getD fb "") else ""

/-- The record built by `extract_metrics` /`extract_table_metrics`:
`{"meter_pr_rulle": ..., "basisenhed": ...}`. -/
structure ExtractedRecord where
  meter_pr_rulle : String
  basisenhed : String
deriving DecidableEq, Repr

/-- Line 131 / 136: `value.replace(",", ".").replace(".", "", 1).isdigit()`.
`replace(".", "", 1)` removes only the first occurrence. -/
def removeFirstDot : List Char → List Char
  | [] => []
  | c :: cs => if c = '.' then cs else c :: removeFirstDot cs

/-- Python `str.isdigit()` on the ASCII data in scope: nonempty and all
characters decimal digits. -/
def pyIsdigit (l : List Char) : Bool := !l.isEmpty && l.all Char.isDigit

/-- The numeric-string test of lines 131/136, applied to
`result["meter_pr_rulle"]`. -/
def numericOk (s : String) : Bool :=
  pyIsdigit (removeFirstDot (s.data.map (fun c => if c = ',' then '.' else c)))

/-- The cleanup block (lines 130–134 / 135–140): clear `meter_pr_rulle`
unless it passes the numeric test, clear `basisenhed` unless it is
`"MTR"` or `"Mtr."`. -/
def cleanup (r : ExtractedRecord) : ExtractedRecord :=
  { meter_pr_rulle := if numericOk r.meter_pr_rulle then r.meter_pr_rulle else ""
    basisenhed :=
      if r.basisenhed = "MTR" ∨ r.basisenhed = "Mtr." then r.basisenhed else "" }

/-- The extraction loop of lines 118–128 over the two desired fields, with
fallback indices 4 (`meter_pr_rulle`) and 6 (`basisenhed`). -/
def extractRaw (cm : List (String × Nat)) (cells : List String) :
    ExtractedRecord :=
  { meter_pr_rulle := resolveField cm cells "meter pr. rulle" 4
    basisenhed := resolveField cm cells "basisenhed" 6 }

/-- Function `extract_metrics(driver, varenr)` (meter_pr_rulle_script.py 96–135):
build the column map, locate the row (returning the all-empty record on a
miss, before any cleanup), read both fields, then apply the cleanup. -/
def extract_metrics (t : TableState) (varenr : String) : ExtractedRecord :=
  match findRow t varenr with
  | none => { meter_pr_rulle := "", basisenhed := "" }
  | some row => cleanup (extractRaw (build_col_map (headerCells t)) row)

/-- Function `extract_table_metrics(driver, product_number)`
(H1_scraper_script.py 99–141): the H1 variant is the same computation —
`build_column_index_map` records blank headers as `""` and then drops them
in the dict comprehension, giving the same map `build_col_map` builds, and
the explicit `fallback_idx` branch picks the same indices 4 and 6. -/
def extract_table_metrics (t : TableState) (varenr : String) :
    ExtractedRecord :=
  extract_metrics t varenr

/-! ### Excel loading (meter_pr_rulle_script.py lines 36–44) -/

/-- A pandas frame as the loader sees it: named columns of nullable cells
(`none` models NaN; cells are already stringified by the spreadsheet glue). -/
structure Frame where
  cols : List (String × List (Option String))
deriving DecidableEq, Repr

/-- Column access `df[k]` when the column is present. -/
def getCol (f : Frame) (k : String) : Option (List (Option String)) :=
  (f.cols.find? (fun p => p.1 = k)).map (fun p => p.2)

inductive LoadError where
  | sourceNotFound
  | schemaError
deriving DecidableEq, Repr

/-- The loader `load_varenr(path)`: `FileNotFoundError` when the file is absent
(the file is `none`), `KeyError` when the `"Varenr."` column is missing,
else `dropna → astype(str) → strip → drop "" → drop_duplicates → set`. -/
def load_varenr (file : Option Frame) : Except LoadError (Finset String) :=
  match file with
  | none => Except.error LoadError.sourceNotFound
  | some df =>
    match getCol df "Varenr." with
    | none => Except.error LoadError.schemaError
    | some col =>
      let values := (col.filterMap id).map pyStrip
      let values := (values.filter (fun v => v ≠ "")).dedup
      Except.ok values.toFinset

/-! ### Work-list differ (meter_pr_rulle_script.py lines 161–166) -/

/-- Python's string comparison on character lists: code-point
lexicographic order (a proper prefix is smaller). Proved below to agree
with `String`'s linear order. -/
def lexLe : List Char → List Char → Bool
  | [], _ => true
  | _ :: _, [] => false
  | a :: as, b :: bs => if a = b then lexLe as bs else decide (a < b)

/-- Python `a <= b` on strings. -/
def strLe (a b : String) : Bool := lexLe a.data b.data

/-- Lines 163–166: `to_scrape = sorted(full_list - exclude_list)` followed
by `[v for v in to_scrape if not str(v).startswith("25")]`. The two sets
are modelled as lists whose `dedup` is the set; Python's `sorted` on
strings uses the code-point lexicographic order `strLe`. -/
def to_scrape (full excl : List String) : List String :=
  (((full.dedup.filter (fun v => !(excl.contains v))).insertionSort
      (fun a b => strLe a b = true)).filter
    (fun v => !(pyStartswith "25" v)))

/-! ### Session loop (meter_pr_rulle_script.py lines 174–188,
H1_scraper_script.py lines 185–207) -/

/-- One appended result row: `{"Varenr.": v, "meter_pr_rulle": ...,
"basisenhed": ...}`. -/
structure Entry where
  varenr : String
  meter_pr_rulle : String
  basisenhed : String
deriving DecidableEq, Repr

/-- Loop body (lines 182–188): start from the all-empty entry for the
item; when `search_and_open_product` succeeds, overwrite the two fields
with the extractor's output (`scrape v = none` models a locate failure). -/
def processItem (scrape : String → Option ExtractedRecord) (v : String) :
    Entry :=
  match scrape v with
  | some m => { varenr := v, meter_pr_rulle := m.meter_pr_rulle,
                basisenhed := m.basisenhed }
  | none => { varenr := v, meter_pr_rulle := "", basisenhed := "" }

/-- The whole `for varenr in to_scrape: ... results.append(entry)` loop:
the final contents of `results`. -/
def runLoop (work : List String) (scrape : String → Option ExtractedRecord) :
    List Entry :=
  work.map (processItem scrape)

/-! ### Result sinks (meter_pr_rulle_script.py lines 138–141,
H1_scraper_script.py lines 143–152) -/

inductive SinkError where
  | writeFailure
deriving DecidableEq, Repr

/-- Function `write_excel(results, path)` (meter script): when `results` is
nonempty it calls `DataFrame(results).to_excel(path)` with NO exception
handler, so a failing write (`writeOk = false`) propagates as an
exception; `durable` is the file contents already on disk. -/
def write_excel (results : List Entry) (writeOk : Bool)
    (durable : Option (List Entry)) :
    Except SinkError (Option (List Entry)) :=
  if results.isEmpty then Except.ok durable
  else if writeOk then Except.ok (some results)
  else Except.error SinkError.writeFailure

/-- Function `write_outputs(results, xlsx_path)` (H1 script): the write is wrapped
in `try/except Exception`, so a failing write only appends a warning to
the log and leaves the durable state untouched; the result is the new
durable state paired with the log lines emitted. -/
def write_outputs (results : List Entry) (writeOk : Bool)
    (durable : Option (List Entry)) :
    Option (List Entry) × List String :=
  if results.isEmpty then (durable, ["No results to write."])
  else if writeOk then (some results, ["Wrote Excel"])
  else (durable, ["Failed to write Excel output"])

/-! ### Run traces (shutdown order and inter-item delays) -/

/-- Observable events of a run of `main`, in program order. -/
inductive Ev where
  | item : String → Ev
  | delay : ℚ → Ev
  | driverQuit : Ev
  | stopSignal : Ev
  | autosaveJoin : Ev
  | finalFlush : Ev
deriving DecidableEq, BEq, Repr

def Ev.isDelay : Ev → Bool
  | Ev.delay _ => true
  | _ => false

def Ev.isItem : Ev → Bool
  | Ev.item _ => true
  | _ => false

/-- CPython `random.uniform(a, b) = a + (b - a) * random()` with
`random() ∈ [0, 1)`; modelled over `ℚ` with the draw `r` explicit. -/
def uniform (a b r : ℚ) : ℚ := a + (b - a) * r

/-- The shutdown tail of `main` in meter_pr_rulle_script.py
(lines 190–194): `driver.quit(); stop_event.set(); save_thread.join();
write_excel(...)` — in exactly this order. -/
def meterShutdown : List Ev :=
  [Ev.driverQuit, Ev.stopSignal, Ev.autosaveJoin, Ev.finalFlush]

/-- The shutdown tail of `main` in H1_scraper_script.py (lines 209–212):
same order as the meter script. -/
def h1Shutdown : List Ev :=
  [Ev.driverQuit, Ev.stopSignal, Ev.autosaveJoin, Ev.finalFlush]

/-- Event trace of meter_pr_rulle_script.py's `main` after setup: the
loop of lines 182–188 performs one item per work entry, with no sleep
between items, then the shutdown tail. -/
def meterMainTrace (work : List String) : List Ev :=
  work.map Ev.item ++ meterShutdown

/-- Event trace of H1_scraper_script.py's `main` after setup: the loop of
lines 193–207 processes each item and then sleeps
`random.uniform(min_delay, max_delay)`, with one random draw per item,
then the shutdown tail. -/
def h1MainTrace (work : List String) (draws : List ℚ) (mn mx : ℚ) :
    List Ev :=
  ((work.zip draws).map
      (fun p => [Ev.item p.1, Ev.delay (uniform mn mx p.2)])).flatten ++
    h1Shutdown

/-! ### Specification-side definitions (for the refinement statements) -/

/-- The two-stage lookup policy in the specification's words: "try
header-name lookup in `column_map` first; if absent or out of range, use
the fallback positional index; if that too is out of range, the field is
empty" (cell values are read stripped, as everywhere in the extractor). -/
def specResolve (found : Option Nat) (cells : List String) (fb : Nat) :
    String :=
  match found with
  | some idx =>
    if idx < cells.length then pyStrip (cells.getD idx "")
    else if fb < cells.length then pyStrip (cells.getD fb "") else ""
  | none => if fb < cells.length then pyStrip (cells.getD fb "") else ""

/-- The loader normalization in the specification's words: "drop null
entries, stringify, trim whitespace, drop empty strings, deduplicate;
order is not significant (output is a set)". -/
def specNormalize (col : List (Option String)) : Finset String :=
  (((col.filterMap id).map pyStrip).filter (fun v => v ≠ "")).toFinset

/-! ### Concrete fixtures used in the theorems and witnesses -/

/-- A table whose single row matches `"A1"` and carries `basisenhed`
`"MTR"` at column 6 and `meter pr. rulle` `"12,5"` at column 4. -/
def tblMTR : TableState :=
  { theadCells := ["Varenr.", "a", "b", "c", "Meter pr. rulle", "e",
                   "Basisenhed"],
    rows := [["A1", "x", "x", "x", "12,5", "x", "MTR"]] }

/-- The same table with `basisenhed` `"Stk"` instead of `"MTR"`. -/
def tblStk : TableState :=
  { theadCells := ["Varenr.", "a", "b", "c", "Meter pr. rulle", "e",
                   "Basisenhed"],
    rows := [["A1", "x", "x", "x", "12,5", "x", "Stk"]] }

/-- The matched row of `tblMTR`. -/
def rowMTR : List String := ["A1", "x", "x", "x", "12,5", "x", "MTR"]

/-- An empty page: no table, no rows. -/
def emptyTbl : TableState := { theadCells := [], rows := [] }

/-- A sample buffer entry. -/
def entryA1 : Entry := { varenr := "A1", meter_pr_rulle := "", basisenhed := "" }

/-- A frame with a `"Varenr."` column holding a null, duplicates and a
whitespace-only cell. -/
def frameW : Frame :=
  { cols := [("Varenr.", [some " A1 ", none, some "A1", some "  "])] }

/-- The `"Varenr."` column of `frameW`. -/
def colW : List (Option String) := [some " A1 ", none, some "A1", some "  "]

/-- A frame without a `"Varenr."` column. -/
def frameNoCol : Frame := { cols := [("Other", [some "z"])] }

/-! ### The executable string order agrees with the lexicographic order -/

theorem lexLe_iff : ∀ as bs : List Char,
    lexLe as bs = true ↔ ¬ List.Lex (· < ·) bs as
  | [], bs => by
    simp only [lexLe, true_iff]
    intro h
    cases h
  | a :: as, [] => by
    simp only [lexLe, Bool.false_eq_true, false_iff, not_not]
    exact List.Lex.nil
  | a :: as, b :: bs => by
    by_cases hab : a = b
    · subst hab
      rw [lexLe, if_pos rfl, lexLe_iff as bs]
      constructor
      · intro h hlex
        cases hlex with
        | cons h' => exact h h'
        | rel h' => exact absurd h' (lt_irrefl a)
      · exact fun h h' => h (List.Lex.cons h')
    · rw [lexLe, if_neg hab, decide_eq_true_iff]
      constructor
      · intro hlt hlex
        cases hlex with
        | cons _ => exact hab rfl
        | rel h' => exact absurd hlt (asymm h')
      · intro h
        rcases lt_trichotomy a b with h1 | h1 | h1
        · exact h1
        · exact absurd h1 hab
        · exact absurd (List.Lex.rel h1) h

theorem strLe_iff (a b : String) : strLe a b = true ↔ a ≤ b := by
  rw [String.le_iff_toList_le, ← not_lt]
  exact lexLe_iff a.data b.data

theorem strLe_total (a b : String) : strLe a b = true ∨ strLe b a = true := by
  rw [strLe_iff, strLe_iff]
  exact le_total a b

theorem strLe_trans {a b c : String} (h1 : strLe a b = true)
    (h2 : strLe b c = true) : strLe a c = true := by
  rw [strLe_iff] at h1 h2 ⊢
  exact le_trans h1 h2

/-! ### Helper lemmas -/

theorem dedup_toFinset (l : List String) : l.dedup.toFinset = l.toFinset := by
  ext a
  simp [List.mem_toFinset, List.mem_dedup]

theorem runLoop_map_varenr (scrape : String → Option ExtractedRecord)
    (work : List String) :
    (runLoop work scrape).map Entry.varenr = work := by
  rw [runLoop, List.map_map]
  have h : (Entry.varenr ∘ processItem scrape) = id := by
    funext v
    cases hv : scrape v <;> simp [processItem, hv]
  rw [h, List.map_id]

theorem to_scrape_nodup (full excl : List String) :
    (to_scrape full excl).Nodup := by
  have h1 : (full.dedup.filter (fun v => !(excl.contains v))).Nodup :=
    (List.nodup_dedup full).filter _
  have h2 : ((full.dedup.filter (fun v => !(excl.contains v))).insertionSort
      (fun a b => strLe a b = true)).Nodup :=
    ((List.perm_insertionSort (fun a b => strLe a b = true) _).nodup_iff).mpr h1
  exact h2.filter _

/-! ### Claim theorems -/

/-- C1: for every table state, `extract_metrics` is a total function into
records over the two field names (the embedding returns an
`ExtractedRecord`, never an exception), and when the row for the
identifier cannot be located by either the exact or the substring XPath,
it returns the record with every field equal to the empty string; the H1
variant `extract_table_metrics` computes the same record. -/
theorem claim1_extract_never_fails (t : TableState) (v : String)
    (h : findRow t v = none) :
    extract_metrics t v = { meter_pr_rulle := "", basisenhed := "" }
    ∧ extract_table_metrics t v = extract_metrics t v := by
  refine ⟨?_, rfl⟩
  simp [extract_metrics, h]

theorem claim1_witness :
    findRow emptyTbl "B9" = none
    ∧ (extract_metrics emptyTbl "B9" = { meter_pr_rulle := "", basisenhed := "" }
      ∧ extract_table_metrics emptyTbl "B9" = extract_metrics emptyTbl "B9") :=
  ⟨rfl, claim1_extract_never_fails emptyTbl "B9" rfl⟩

/-- C2: the work list is the lexicographically sorted set difference with
the `"25"`-prefixed identifiers removed by a post-sort filter: it is
sorted for `String`'s lexicographic order, every element avoids the
exclusion set and the reserved prefix while coming from the full set, and
the concrete scenario `full = {"A1","A2","25X"}`, `exclude = {"A2"}`
yields exactly `["A1"]`. -/
theorem claim2_worklist_diff (full excl : List String) :
    List.Sorted (fun a b : String => a ≤ b) (to_scrape full excl)
    ∧ ((to_scrape full excl).all
        (fun v => !(excl.contains v) && !(pyStartswith "25" v)
          && full.contains v)) = true
    ∧ to_scrape ["A1", "A2", "25X"] ["A2"] = ["A1"] := by
  refine ⟨?_, ?_, by decide⟩
  · have hs : List.Pairwise (fun a b : String => strLe a b = true)
        ((full.dedup.filter (fun v => !(excl.contains v))).insertionSort
          (fun a b => strLe a b = true)) := by
      haveI : IsTotal String (fun a b => strLe a b = true) := ⟨strLe_total⟩
      haveI : IsTrans String (fun a b => strLe a b = true) :=
        ⟨fun _ _ _ => strLe_trans⟩
      exact List.sorted_insertionSort _ _
    exact (hs.filter _).imp (fun h => (strLe_iff _ _).mp h)
  · rw [List.all_eq_true]
    intro v hv
    rw [to_scrape, List.mem_filter] at hv
    obtain ⟨hv1, hv2⟩ := hv
    have hv3 : v ∈ full.dedup.filter (fun v => !(excl.contains v)) :=
      (List.perm_insertionSort _ _).mem_iff.mp hv1
    rw [List.mem_filter] at hv3
    obtain ⟨hv4, hv5⟩ := hv3
    have hfull : v ∈ full := List.mem_dedup.mp hv4
    have hcont : full.contains v = true := List.elem_iff.mpr hfull
    rw [hv5, hv2, hcont]
    rfl

/-- C3: after extraction, each field either failed its validation rule
and was reset to the empty string, or passed it: `meter_pr_rulle` is
empty or a numeric string and `basisenhed` is empty or in
`{"MTR", "Mtr."}`; concretely, a located row with `basisenhed` `"MTR"`
keeps it, one with `"Stk"` gets the empty string. -/
theorem claim3_validation_policy (t : TableState) (v : String) :
    ((extract_metrics t v).meter_pr_rulle = ""
      ∨ numericOk (extract_metrics t v).meter_pr_rulle = true)
    ∧ ((extract_metrics t v).basisenhed = ""
      ∨ (extract_metrics t v).basisenhed = "MTR"
      ∨ (extract_metrics t v).basisenhed = "Mtr.")
    ∧ extract_metrics tblMTR "A1"
        = { meter_pr_rulle := "12,5", basisenhed := "MTR" }
    ∧ extract_metrics tblStk "A1"
        = { meter_pr_rulle := "12,5", basisenhed := "" } := by
  refine ⟨?_, ?_, by decide, by decide⟩
  · cases h : findRow t v with
    | none => exact Or.inl (by simp [extract_metrics, h])
    | some row =>
      have he : extract_metrics t v
          = cleanup (extractRaw (build_col_map (headerCells t)) row) := by
        simp [extract_metrics, h]
      rw [he, cleanup]
      by_cases hnum :
          numericOk (extractRaw (build_col_map (headerCells t)) row).meter_pr_rulle
        = true
      · exact Or.inr (by simp [hnum])
      · exact Or.inl (by simp [hnum])
  · cases h : findRow t v with
    | none => exact Or.inl (by simp [extract_metrics, h])
    | some row =>
      have he : extract_metrics t v
          = cleanup (extractRaw (build_col_map (headerCells t)) row) := by
        simp [extract_metrics, h]
      rw [he, cleanup]
      by_cases hb :
          (extractRaw (build_col_map (headerCells t)) row).basisenhed = "MTR"
        ∨ (extractRaw (build_col_map (headerCells t)) row).basisenhed = "Mtr."
      · rcases hb with hb | hb
        · exact Or.inr (Or.inl (by simp [hb]))
        · exact Or.inr (Or.inr (by simp [hb]))
      · exact Or.inl (by simp [hb])

/-- C4: on a located row, each field is resolved by the two-stage policy
(header-name lookup in the column map when it yields an in-range index,
else the fallback positional index — 4 for `meter_pr_rulle`, 6 for
`basisenhed` — when in range, else the empty string) followed by the
validation cleanup; `specResolve` states the policy in the
specification's words. -/
theorem claim4_two_stage_lookup (t : TableState) (v : String)
    (row : List String) (h : findRow t v = some row) :
    extract_metrics t v =
      cleanup
        { meter_pr_rulle :=
            specResolve (dictGet (build_col_map (headerCells t))
              "meter pr. rulle") row 4
          basisenhed :=
            specResolve (dictGet (build_col_map (headerCells t))
              "basisenhed") row 6 } := by
  simp only [extract_metrics, h]
  rfl

theorem claim4_witness :
    findRow tblMTR "A1" = some rowMTR
    ∧ extract_metrics tblMTR "A1" =
        cleanup
          { meter_pr_rulle :=
              specResolve (dictGet (build_col_map (headerCells tblMTR))
                "meter pr. rulle") rowMTR 4
            basisenhed :=
              specResolve (dictGet (build_col_map (headerCells tblMTR))
                "basisenhed") rowMTR 6 } :=
  ⟨by decide, claim4_two_stage_lookup tblMTR "A1" rowMTR (by decide)⟩

/-- C5: for every work list produced by the differ, a completed run's
result buffer has exactly one record per work item, the identifiers of
the records are exactly the work list in order (hence drawn from it), and
no identifier appears twice. -/
theorem claim5_buffer_invariant (full excl : List String)
    (scrape : String → Option ExtractedRecord) :
    (runLoop (to_scrape full excl) scrape).length
        = (to_scrape full excl).length
    ∧ (runLoop (to_scrape full excl) scrape).map Entry.varenr
        = to_scrape full excl
    ∧ ((runLoop (to_scrape full excl) scrape).map Entry.varenr).Nodup := by
  refine ⟨by rw [runLoop, List.length_map], runLoop_map_varenr _ _, ?_⟩
  rw [runLoop_map_varenr]
  exact to_scrape_nodup full excl

/-- C6 counterexample: the meter script's sink flush `write_excel` DOES
raise on a write failure — with a nonempty buffer and a failing write it
propagates the exception instead of returning, refuting "for every buffer
snapshot and output path, the sink flush operation never raises". -/
theorem claim6_counterexample :
    write_excel [entryA1] false (some []) =
      Except.error SinkError.writeFailure := rfl

/-- C6 (amended): the H1 sink flush `write_outputs` never raises — on a
write failure over a nonempty buffer it leaves the prior durable state
untouched and records the failure in the log, and the run continues; the
meter script's `write_excel`, by contrast, propagates write failures
(see the counterexample). -/
theorem claim6_h1_flush_never_raises (results : List Entry)
    (durable : Option (List Entry)) (h : results ≠ []) :
    (write_outputs results false durable).1 = durable
    ∧ (write_outputs results false durable).2
        = ["Failed to write Excel output"] := by
  cases results with
  | nil => exact absurd rfl h
  | cons e es => exact ⟨rfl, rfl⟩

theorem claim6_witness :
    ([entryA1] : List Entry) ≠ []
    ∧ ((write_outputs [entryA1] false (some [])).1 = some []
      ∧ (write_outputs [entryA1] false (some [])).2
          = ["Failed to write Excel output"]) :=
  ⟨by simp, claim6_h1_flush_never_raises [entryA1] (some []) (by simp)⟩

/-- C7 counterexample: in the meter script's shutdown tail the final
flush does NOT precede the release of the browser — `driver.quit()` is
executed first, so the claimed order (flush before quit) fails. -/
theorem claim7_counterexample :
    ¬ (List.indexOf Ev.finalFlush meterShutdown
        < List.indexOf Ev.driverQuit meterShutdown) := by decide

/-- C7 (amended): on completion of the last work item both runners first
close the browser session (`driver.quit()`), and only then signal the
autosave task to stop, wait for it to finish, and perform the final
synchronous flush — the stop-signal → join → final-flush order the claim
states does hold, but the external collaborator is released before these
steps, not after the final flush. -/
theorem claim7_shutdown_order :
    List.indexOf Ev.driverQuit meterShutdown
        < List.indexOf Ev.stopSignal meterShutdown
    ∧ List.indexOf Ev.stopSignal meterShutdown
        < List.indexOf Ev.autosaveJoin meterShutdown
    ∧ List.indexOf Ev.autosaveJoin meterShutdown
        < List.indexOf Ev.finalFlush meterShutdown
    ∧ List.indexOf Ev.driverQuit h1Shutdown
        < List.indexOf Ev.stopSignal h1Shutdown
    ∧ List.indexOf Ev.stopSignal h1Shutdown
        < List.indexOf Ev.autosaveJoin h1Shutdown
    ∧ List.indexOf Ev.autosaveJoin h1Shutdown
        < List.indexOf Ev.finalFlush h1Shutdown := by
  decide

/-- C8: the loader fails with the source-not-found error when the input
resource does not exist, fails with the schema error when `"Varenr."` is
absent from the frame's columns, and otherwise returns exactly the set
described by `specNormalize` (drop nulls, stringify, trim, drop empties,
deduplicate); loading the same source twice yields identical sets because
the embedded loader is a pure function of the source. -/
theorem claim8_loader_contract (df dfm : Frame) (col : List (Option String))
    (hcol : getCol df "Varenr." = some col)
    (hmiss : ("Varenr." : String) ∉ dfm.cols.map Prod.fst) :
    load_varenr none = Except.error LoadError.sourceNotFound
    ∧ load_varenr (some dfm) = Except.error LoadError.schemaError
    ∧ load_varenr (some df) = Except.ok (specNormalize col)
    ∧ load_varenr (some df) = load_varenr (some df) := by
  refine ⟨rfl, ?_, ?_, rfl⟩
  · have hnone : getCol dfm "Varenr." = none := by
      rw [getCol, List.find?_eq_none.mpr ?hall]
      · rfl
      case hall =>
        intro p hp hEq
        rw [decide_eq_true_iff] at hEq
        exact hmiss (List.mem_map.mpr ⟨p, hp, hEq⟩)
    simp [load_varenr, hnone]
  · simp only [load_varenr, hcol, specNormalize]
    rw [dedup_toFinset]

theorem claim8_witness :
    getCol frameW "Varenr." = some colW
    ∧ (("Varenr." : String) ∉ frameNoCol.cols.map Prod.fst)
    ∧ (load_varenr none = Except.error LoadError.sourceNotFound
      ∧ load_varenr (some frameNoCol) = Except.error LoadError.schemaError
      ∧ load_varenr (some frameW) = Except.ok (specNormalize colW)
      ∧ load_varenr (some frameW) = load_varenr (some frameW)) :=
  ⟨rfl, by decide, claim8_loader_contract frameW frameNoCol colW rfl (by decide)⟩

/-- C9 counterexample: the meter script's session loop applies NO delay
between consecutive work items — in a run over two items the trace
contains the two item events and no delay event at all, refuting "for
every run of the session runner, a bounded randomized delay is applied
between consecutive work items". -/
theorem claim9_counterexample :
    ((meterMainTrace ["A", "B"]).filter Ev.isItem).length = 2
    ∧ (meterMainTrace ["A", "B"]).filter Ev.isDelay = [] :=
  ⟨rfl, rfl⟩

/-- C9 (amended): in the H1 script's session loop, every inter-item delay
is `random.uniform(min_delay, max_delay)` and hence lies within
`[min_delay, max_delay]` whenever `min_delay ≤ max_delay` (and the
underlying draws lie in `[0, 1]`); the meter script's loop applies no
inter-item delay at all and exposes no delay flags (see the
counterexample). -/
theorem claim9_h1_delay_bounds (work : List String) (draws : List ℚ)
    (mn mx : ℚ) (hle : mn ≤ mx) (hdr : ∀ r ∈ draws, 0 ≤ r ∧ r ≤ 1)
    (q : ℚ) (hq : Ev.delay q ∈ h1MainTrace work draws mn mx) :
    mn ≤ q ∧ q ≤ mx := by
  rw [h1MainTrace, List.mem_append] at hq
  rcases hq with hq | hq
  · rw [List.mem_flatten] at hq
    obtain ⟨l, hl, hmem⟩ := hq
    rw [List.mem_map] at hl
    obtain ⟨p, hp, rfl⟩ := hl
    simp only [List.mem_cons, List.not_mem_nil, or_false] at hmem
    rcases hmem with hmem | hmem
    · exact absurd hmem (by simp)
    · have hq2 : q = uniform mn mx p.2 := by
        injection hmem
      obtain ⟨hr0, hr1⟩ := hdr p.2 (List.of_mem_zip hp).2
      subst hq2
      rw [uniform]
      constructor
      · have hpos : 0 ≤ (mx - mn) * p.2 :=
          mul_nonneg (by linarith) hr0
        linarith
      · have hbound : (mx - mn) * p.2 ≤ (mx - mn) * 1 :=
          mul_le_mul_of_nonneg_left hr1 (by linarith)
        linarith
  · exact absurd hq (by simp [h1Shutdown])

theorem claim9_witness :
    (0 : ℚ) ≤ uniform 0 1 0 ∧ uniform 0 1 0 ≤ 1 :=
  claim9_h1_delay_bounds ["A"] [0] 0 1 (by norm_num)
    (fun r hr => by
      simp only [List.mem_cons, List.not_mem_nil, or_false] at hr
      subst hr
      norm_num)
    (uniform 0 1 0)
    (by simp [h1MainTrace, h1Shutdown])

/-- C10: the numeric-string rule of the cleanup block keeps a value
exactly when it passes `numericOk` (replace commas by dots, drop the
first dot, require nonempty all-digits) and stores it verbatim, comma
included; `"12,5"` passes and is stored as `"12,5"` (also through the
full extractor on `tblMTR`), while `"1.2.3"`, `"-5"` and `""` are
rejected and reset to empty. -/
theorem claim10_numeric_rule (v b : String) :
    (cleanup { meter_pr_rulle := v, basisenhed := b }).meter_pr_rulle
        = (if numericOk v then v else "")
    ∧ numericOk "12,5" = true
    ∧ (extract_metrics tblMTR "A1").meter_pr_rulle = "12,5"
    ∧ numericOk "1.2.3" = false
    ∧ numericOk "-5" = false
    ∧ numericOk "" = false
    ∧ (cleanup { meter_pr_rulle := "1.2.3", basisenhed := b }).meter_pr_rulle
        = "" := by
  refine ⟨rfl, by decide, by decide, by decide, by decide, by decide, ?_⟩
  have h : numericOk "1.2.3" = false := by decide
  simp [cleanup, h]
